import Mathlib

/-!
Verification of the Access Layer of the multi-tenant agent platform:
the tenant-scoped database helper (`src/agents/shared/database.py`) and
the message-relay client (`src/agents/shared/claude_client.py`),
shallowly embedded in Lean 4.

The external services (the PostgreSQL driver psycopg2 and the Bedrock
transport) are modelled as explicit environments (`PGEnv`, `RelayEnv`)
supplying the outcome of each driver call; the Python methods are
translated statement by statement into pure functions over an explicit
connection / client state, with Python exceptions modelled as `Except`.
-/

namespace AccessLayer

/-- Python exception values that can propagate out of the Access Layer.
`connectFailed` stands for the driver error raised by `psycopg2.connect`,
`queryFailed` for a driver error raised by `cursor.execute`,
`attributeError` for calling a method on `None`,
`transportError` for a Bedrock `invoke_model` failure (network, auth,
throttling or an unparsable JSON response body), and `keyError` /
`indexError` / `typeError` for the Python subscript failures raised while
extracting `response_body['content'][0]['text']`. -/
inductive PyErr where
  | connectFailed
  | queryFailed
  | attributeError
  | transportError
  | keyError : String → PyErr
  | indexError
  | typeError
  deriving DecidableEq, Repr

/-- A JSON value, used for relay request/response bodies and for the
column values of `RealDictCursor` rows. -/
inductive Json where
  | str : String → Json
  | num : Int → Json
  | bool : Bool → Json
  | null : Json
  | arr : List Json → Json
  | obj : List (String × Json) → Json

/-- One result row as produced by `RealDictCursor`: a mapping from column
name to value. -/
abbrev Row := List (String × Json)

/-- Python truthiness of an `Optional[str]`: `None` and the empty string
are falsy, every other string is truthy.  Both `if self.tenant_id:` in
`Database.connect` and `if system:` in `ClaudeClient.send_message` branch
on this. -/
def pyTruthy : Option String → Bool
  | none => false
  | some s => s ≠ ""

/-! ## Tenant-scoped store (`src/agents/shared/database.py`) -/

/-- The state of one open psycopg2 session.
`tenantTag` is the server-side session variable `app.tenant_id`
(absent until a `SET` statement assigns it); `log` records every
statement handed to the driver, as the pair (query text, parameters)
passed to `cursor.execute`; `commits` counts `connection.commit()` calls;
`closed` records whether `connection.close()` has been issued. -/
structure PGSession where
  tenantTag : Option String
  log : List (String × Option (List String))
  commits : Nat
  closed : Bool
  deriving Repr

/-- The session state produced by a successful `psycopg2.connect`:
no session variable set, nothing executed, nothing committed, open. -/
def freshSession : PGSession :=
  { tenantTag := none, log := [], commits := 0, closed := false }

/-- The outcome the database assigns to one statement: a result set
(`cursor.description` is non-null and `fetchall()` yields these rows in
order), a commandlike completion with no result set
(`cursor.description` is null, as for INSERT/UPDATE/DELETE or SET), or a
driver error raised by `cursor.execute`. -/
inductive StmtOutcome where
  | rows : List Row → StmtOutcome
  | command : StmtOutcome
  | fail : PyErr → StmtOutcome

/-- The database environment: whether the network/auth handshake of
`psycopg2.connect` succeeds, and the outcome the server gives to each
statement (as a function of the query text and the parameter tuple). -/
structure PGEnv where
  connectOk : Bool
  runStmt : String → Option (List String) → StmtOutcome

/-- The exact query text of the session-tagging statement issued by
`Database.connect`; `%s` is a driver-side placeholder, so the text is a
constant independent of the tenant value. -/
def setTenantQuery : String := "SET app.tenant_id = %s"

/-- Server-side effect of a statement on the session variable
`app.tenant_id`: the tagging statement with one parameter sets it; every
other statement leaves it unchanged. -/
def applyTag (s : PGSession) (q : String) (params : Option (List String)) : PGSession :=
  if q = setTenantQuery then
    match params with
    | some [t] => { s with tenantTag := some t }
    | _ => s
  else s

/-- `cursor.execute(q, params)` on session `s`: the statement (text and
parameters, verbatim) is handed to the driver and logged; on success the
session variable effect is applied and the optional result set returned
(`some rows` when `cursor.description` is non-null, `none` otherwise);
on a driver error the exception propagates. -/
def cursorExecute (env : PGEnv) (s : PGSession) (q : String)
    (params : Option (List String)) :
    PGSession × Except PyErr (Option (List Row)) :=
  let s1 := { s with log := s.log ++ [(q, params)] }
  match env.runStmt q params with
  | .fail e => (s1, .error e)
  | .rows rs => (applyTag s1 q params, .ok (some rs))
  | .command => (applyTag s1 q params, .ok none)

/-- `connection.close()`.  psycopg2 documents `close` on an already
closed connection as a no-op (it has not raised since psycopg2 2.2), so
the driver-level close is total. -/
def pgClose (s : PGSession) : Except PyErr PGSession :=
  .ok { s with closed := true }

/-- The `Database` object: the `tenant_id` given to `__init__` and the
`connection` attribute (`None` until `connect` assigns it). -/
structure Database where
  tenant_id : Option String
  connection : Option PGSession

/-- `Database.connect`: establish the connection (assigning
`self.connection` first), then — only when `self.tenant_id` is truthy —
issue the session-tagging statement `SET app.tenant_id = %s` with the
tenant identifier passed as a driver parameter.  On handshake failure
the driver exception propagates and `self.connection` is left unchanged;
on tagging failure the exception propagates with the freshly built
connection still assigned (the source re-raises without closing it).
Returns the mutated object and the normal/exceptional outcome. -/
def Database.connect (db : Database) (env : PGEnv) :
    Database × Except PyErr Unit :=
  if env.connectOk then
    match db.tenant_id with
    | some t =>
      if t = "" then
        ({ db with connection := some freshSession }, .ok ())
      else
        match cursorExecute env freshSession setTenantQuery (some [t]) with
        | (s1, .ok _) => ({ db with connection := some s1 }, .ok ())
        | (s1, .error e) => ({ db with connection := some s1 }, .error e)
    | none => ({ db with connection := some freshSession }, .ok ())
  else
    (db, .error .connectFailed)

/-- `Database.execute(query, params)`: runs the statement through a
cursor of the current connection; when `cursor.description` is non-null
it returns `fetchall()` without committing, otherwise it calls
`self.connection.commit()` and returns the empty list.  Calling it on a
never-connected object dereferences `None` (`AttributeError`). -/
def Database.execute (db : Database) (env : PGEnv) (query : String)
    (params : Option (List String)) :
    Database × Except PyErr (List Row) :=
  match db.connection with
  | none => (db, .error .attributeError)
  | some s =>
    match cursorExecute env s query params with
    | (s1, .error e) => ({ db with connection := some s1 }, .error e)
    | (s1, .ok (some rs)) => ({ db with connection := some s1 }, .ok rs)
    | (s1, .ok none) =>
      ({ db with connection := some { s1 with commits := s1.commits + 1 } }, .ok [])

/-- `Database.close`: `if self.connection:` guards the driver call, so a
never-connected object is a no-op; otherwise `connection.close()` is
issued (idempotently, see `pgClose`).  `self.connection` is not reset to
`None`. -/
def Database.close (db : Database) : Database × Except PyErr Unit :=
  match db.connection with
  | none => (db, .ok ())
  | some s =>
    match pgClose s with
    | .ok s1 => ({ db with connection := some s1 }, .ok ())
    | .error e => (db, .error e)

/-- Outcome of the body of a `with` block: normal completion with a
value, or a raised exception. -/
inductive BodyResult (α : Type) where
  | ret : α → BodyResult α
  | exc : PyErr → BodyResult α

/-- The `with Database(...) as db:` statement.  `__enter__` is
`self.connect()` (returning the object); if it raises, the exception
propagates and `__exit__` is not called.  Otherwise the body runs and
`__exit__` — which ignores the exception information and calls
`self.close()` — runs on both the normal and the exceptional exit of the
body; since `__exit__` returns `None`, a body exception propagates after
the close. -/
def withDatabase {α : Type} (db0 : Database) (env : PGEnv)
    (body : Database → Database × BodyResult α) :
    Database × Except PyErr α :=
  match db0.connect env with
  | (db1, .error e) => (db1, .error e)
  | (db1, .ok ()) =>
    match body db1 with
    | (db2, .ret a) =>
      match db2.close with
      | (db3, .ok ()) => (db3, .ok a)
      | (db3, .error e) => (db3, .error e)
    | (db2, .exc e) =>
      match db2.close with
      | (db3, _) => (db3, .error e)

/-! ## Message relay client (`src/agents/shared/claude_client.py`) -/

/-- One chat turn, `{"role": ..., "content": ...}`. -/
structure Message where
  role : String
  content : String
  deriving DecidableEq, Repr

/-- The request envelope `request_body` built by
`ClaudeClient.send_message`: the fixed protocol version tag, the token
bound, the message sequence, and — represented as `some`/`none` — the
optional `system` field. -/
structure RequestBody where
  anthropic_version : String
  max_tokens : Nat
  messages : List Message
  system : Option String
  deriving DecidableEq, Repr

/-- Builds `request_body` exactly as `send_message` does: the three
unconditional fields, then `if system: request_body["system"] = system` —
a Python truthiness test, so the `system` field is added only for a
non-`None`, non-empty instruction. -/
def buildRequestBody (messages : List Message) (system : Option String)
    (max_tokens : Nat) : RequestBody :=
  { anthropic_version := "bedrock-2023-05-31"
    max_tokens := max_tokens
    messages := messages
    system := if pyTruthy system then system else none }

/-- The `ClaudeClient` object: the model identifier resolved at
`__init__` (from configuration, with a built-in default). -/
structure ClaudeClient where
  model_id : String

/-- The relay environment: the outcome of
`invoke_model(modelId, body)` followed by `json.loads` on the response
body — either the parsed JSON response, or an exception (network, auth,
throttling, malformed request, or an unparsable response body). -/
structure RelayEnv where
  invoke : String → RequestBody → Except PyErr Json

/-- Python `d[k]` on a JSON value: key lookup on an object
(`KeyError` when absent), `TypeError` on any non-object. -/
def jsonLookup (j : Json) (k : String) : Except PyErr Json :=
  match j with
  | .obj fields =>
    match fields.lookup k with
    | some v => .ok v
    | none => .error (.keyError k)
  | _ => .error .typeError

/-- Python `xs[0]` on a JSON value: first element of an array
(`IndexError` when empty), `TypeError` on any non-array. -/
def jsonFirst (j : Json) : Except PyErr Json :=
  match j with
  | .arr [] => .error .indexError
  | .arr (x :: _) => .ok x
  | _ => .error .typeError

/-- The extraction `response_body['content'][0]['text']` performed by
`send_message` on the parsed response. -/
def extractReply (body : Json) : Except PyErr Json := do
  let c ← jsonLookup body "content"
  let first ← jsonFirst c
  jsonLookup first "text"

/-- `ClaudeClient.send_message(messages, system, max_tokens)`: builds the
request envelope, submits it, and extracts the reply text; any exception
raised inside the `try` block (transport or extraction) is re-raised to
the caller. -/
def ClaudeClient.send_message (c : ClaudeClient) (env : RelayEnv)
    (messages : List Message) (system : Option String) (max_tokens : Nat) :
    Except PyErr Json :=
  match env.invoke c.model_id (buildRequestBody messages system max_tokens) with
  | .error e => .error e
  | .ok body => extractReply body

/-- `ClaudeClient.chat(user_message, system)`: wraps the user text into a
single-turn message list with role `"user"` and calls `send_message`
with the default token bound 1024. -/
def ClaudeClient.chat (c : ClaudeClient) (env : RelayEnv)
    (user_message : String) (system : Option String) : Except PyErr Json :=
  let messages : List Message := [{ role := "user", content := user_message }]
  c.send_message env messages system 1024

/-- Modelled from the spec (for the refinement claim about `chat`):
"convenience form that wraps `user_text` into a single-turn message
sequence with role user and delegates to `send`", with `send`'s default
token bound of 1024. -/
def chatSpec (c : ClaudeClient) (env : RelayEnv)
    (user_text : String) (system_instruction : Option String) : Except PyErr Json :=
  c.send_message env [{ role := "user", content := user_text }] system_instruction 1024

/-! ## Concrete environments and helper lemmas -/

/-- A database environment in which the handshake succeeds and every
statement completes as a command (no result set, no error). -/
def okEnv : PGEnv := { connectOk := true, runStmt := fun _ _ => .command }

/-- A database environment in which the network/auth handshake fails. -/
def failConnEnv : PGEnv := { connectOk := false, runStmt := fun _ _ => .command }

/-- A database environment in which the handshake succeeds but every
statement (in particular the session-tagging statement) raises a driver
error. -/
def tagFailEnv : PGEnv := { connectOk := true, runStmt := fun _ _ => .fail .queryFailed }

/-- A database environment in which the handshake succeeds, `SELECT 1`
yields its single-row result set, and every other statement completes as
a command. -/
def selectEnv : PGEnv :=
  { connectOk := true,
    runStmt := fun q _ =>
      if q = "SELECT 1" then .rows [[("?column?", Json.num 1)]] else .command }

/-- The session produced by connecting with tenant `customer-001` in a
well-behaved environment. -/
def connectedSession : PGSession :=
  { tenantTag := some "customer-001",
    log := [(setTenantQuery, some ["customer-001"])],
    commits := 0, closed := false }

/-- A `Database` object for tenant `customer-001` after a successful
`connect` in a well-behaved environment. -/
def connectedDb : Database :=
  { tenant_id := some "customer-001", connection := some connectedSession }

/-- `applyTag` only touches the session variable: the statement log is
unchanged. -/
theorem applyTag_log (s : PGSession) (q : String) (p : Option (List String)) :
    (applyTag s q p).log = s.log := by
  unfold applyTag
  split
  · split <;> rfl
  · rfl

/-- `applyTag` only touches the session variable: the commit counter is
unchanged. -/
theorem applyTag_commits (s : PGSession) (q : String) (p : Option (List String)) :
    (applyTag s q p).commits = s.commits := by
  unfold applyTag
  split
  · split <;> rfl
  · rfl

/-- `Database.close` never raises: the driver-level close is a no-op on
an already closed connection and the `if self.connection:` guard covers
the never-connected case. -/
theorem close_never_raises (db : Database) : (db.close).2 = .ok () := by
  rcases db with ⟨t, c⟩
  cases c <;> rfl

/-- After `Database.close`, the session (when one exists) is marked
closed. -/
theorem close_marks_closed (db : Database) (s : PGSession)
    (h : db.connection = some s) :
    (db.close).1.connection = some { s with closed := true } := by
  rcases db with ⟨t, c⟩
  cases c with
  | none => simp at h
  | some s0 =>
    simp only [Option.some.injEq] at h
    subst h
    rfl

/-! ## Claims about the tenant-scoped store -/

/-- C1 as stated is false at the tenant identifier `""`: opening a
Connection with the empty-string tenant issues no session-tagging
statement at all (the log of the fresh session is empty), so querying
the session tag afterwards returns nothing rather than `""`. -/
theorem C1_counterexample :
    ((Database.mk (some "") none).connect okEnv).1.connection = some freshSession ∧
    freshSession.log = [] ∧
    freshSession.tenantTag ≠ some "" := by
  refine ⟨rfl, rfl, ?_⟩
  simp [freshSession]

/-- C1 (amended): for every non-empty tenant identifier `t`, opening a
Connection with tenant `t` (in an environment where the handshake
succeeds and the tagging statement completes) issues exactly one
session-scoped statement — `SET app.tenant_id = %s` with `t` as its
driver parameter — before returning, leaving the session variable
`app.tenant_id` equal to `t`, so querying the session tag on that
connection returns `t`. -/
theorem C1_amended (t : String) (ht : t ≠ "") (env : PGEnv)
    (hok : env.connectOk = true)
    (hset : env.runStmt setTenantQuery (some [t]) = .command) :
    (Database.mk (some t) none).connect env =
      ({ tenant_id := some t,
         connection := some { tenantTag := some t,
                              log := [(setTenantQuery, some [t])],
                              commits := 0, closed := false } }, .ok ()) := by
  simp [Database.connect, hok, ht, cursorExecute, hset, freshSession, applyTag]

/-- C1 witness: tenant `customer-001` in the well-behaved environment. -/
theorem C1_witness :
    (Database.mk (some "customer-001") none).connect okEnv =
      ({ tenant_id := some "customer-001",
         connection := some { tenantTag := some "customer-001",
                              log := [(setTenantQuery, some ["customer-001"])],
                              commits := 0, closed := false } }, .ok ()) :=
  C1_amended "customer-001" (by decide) okEnv rfl rfl

/-- C2: under the context-managed form, once `__enter__` (that is,
`connect`) has succeeded, `close` is invoked on every exit path of the
body — normal completion as well as exit by exception — so the final
state is exactly the body's state after `close`, and the underlying
transport session is marked closed. -/
theorem C2 {α : Type} (db0 db1 : Database) (env : PGEnv)
    (body : Database → Database × BodyResult α)
    (hconn : db0.connect env = (db1, .ok ())) :
    (∀ db2 a, body db1 = (db2, .ret a) →
      withDatabase db0 env body = ((db2.close).1, .ok a)) ∧
    (∀ db2 e, body db1 = (db2, .exc e) →
      withDatabase db0 env body = ((db2.close).1, .error e)) ∧
    (∀ db2 r s, body db1 = (db2, r) → db2.connection = some s →
      (withDatabase db0 env body).1.connection = some { s with closed := true }) := by
  refine ⟨?_, ?_, ?_⟩
  · intro db2 a hbody
    have hc := close_never_raises db2
    rcases hcl : db2.close with ⟨db3, c⟩
    rw [hcl] at hc
    simp only at hc
    subst hc
    simp [withDatabase, hconn, hbody, hcl]
  · intro db2 e hbody
    rcases hcl : db2.close with ⟨db3, c⟩
    simp [withDatabase, hconn, hbody, hcl]
  · intro db2 r s hbody hs
    have hclosed := close_marks_closed db2 s hs
    cases r with
    | ret a =>
      have hc := close_never_raises db2
      rcases hcl : db2.close with ⟨db3, c⟩
      rw [hcl] at hc hclosed
      simp only at hc
      subst hc
      simp only at hclosed
      simp [withDatabase, hconn, hbody, hcl, hclosed]
    | exc e =>
      rcases hcl : db2.close with ⟨db3, c⟩
      rw [hcl] at hclosed
      simp only at hclosed
      simp [withDatabase, hconn, hbody, hcl, hclosed]

/-- C2 witness: a body that completes normally, and one that raises, in
the well-behaved environment. -/
theorem C2_witness :
    withDatabase (Database.mk (some "customer-001") none) okEnv
      (fun db => (db, BodyResult.ret (0 : Nat))) = ((connectedDb.close).1, .ok 0) ∧
    withDatabase (Database.mk (some "customer-001") none) okEnv
      (fun db => (db, BodyResult.exc (α := Nat) .queryFailed)) =
      ((connectedDb.close).1, .error .queryFailed) :=
  ⟨(C2 (Database.mk (some "customer-001") none) connectedDb okEnv _ rfl).1
      connectedDb 0 rfl,
   (C2 (Database.mk (some "customer-001") none) connectedDb okEnv _ rfl).2.1
      connectedDb .queryFailed rfl⟩

/-- C3: on an open Connection, a statement that produces a result set
makes `execute` return the rows as an ordered sequence of column-to-value
mappings with the commit counter unchanged, while a statement producing
no result set (a mutation) makes `execute` commit once and return the
empty sequence. -/
theorem C3 (db : Database) (env : PGEnv) (q : String)
    (p : Option (List String)) (s : PGSession) (h : db.connection = some s) :
    (∀ rs, env.runStmt q p = .rows rs →
      (db.execute env q p).2 = .ok rs ∧
      ∃ s1, (db.execute env q p).1.connection = some s1 ∧
        s1.commits = s.commits) ∧
    (env.runStmt q p = .command →
      (db.execute env q p).2 = .ok [] ∧
      ∃ s1, (db.execute env q p).1.connection = some s1 ∧
        s1.commits = s.commits + 1) := by
  constructor
  · intro rs hrs
    simp [Database.execute, h, cursorExecute, hrs]
    rw [applyTag_commits]
  · intro hcmd
    simp [Database.execute, h, cursorExecute, hcmd]
    rw [applyTag_commits]

/-- C3 witness: `SELECT 1` returns its single row without committing;
an `INSERT` (completing as a command in `selectEnv`) returns the empty
sequence and commits once. -/
theorem C3_witness :
    ((connectedDb.execute selectEnv "SELECT 1" none).2 =
        .ok [[("?column?", Json.num 1)]] ∧
      ∃ s1, (connectedDb.execute selectEnv "SELECT 1" none).1.connection = some s1 ∧
        s1.commits = connectedSession.commits) ∧
    ((connectedDb.execute selectEnv "INSERT INTO t VALUES (%s)" (some ["v"])).2 = .ok [] ∧
      ∃ s1,
        (connectedDb.execute selectEnv "INSERT INTO t VALUES (%s)" (some ["v"])).1.connection =
          some s1 ∧
        s1.commits = connectedSession.commits + 1) :=
  ⟨(C3 connectedDb selectEnv "SELECT 1" none connectedSession rfl).1
      [[("?column?", Json.num 1)]] rfl,
   (C3 connectedDb selectEnv "INSERT INTO t VALUES (%s)" (some ["v"])
      connectedSession rfl).2 rfl⟩

/-- C4 as stated is false: when the handshake succeeds but the
tenant-tagging statement fails, `connect` re-raises the driver error
while the already-established connection is still assigned to the object
and still open (`closed = false`) — it is not discarded before the error
propagates. -/
theorem C4_counterexample :
    ((Database.mk (some "customer-001") none).connect tagFailEnv).2 =
      .error .queryFailed ∧
    ((Database.mk (some "customer-001") none).connect tagFailEnv).1.connection =
      some { tenantTag := none,
             log := [(setTenantQuery, some ["customer-001"])],
             commits := 0, closed := false } :=
  ⟨rfl, rfl⟩

/-- C4 (amended): whenever open fails, the underlying failure is raised
to the caller; when the network/auth handshake fails, no connection has
been built (the `connection` attribute is unchanged, so nothing leaks),
but when the tenant-tagging statement fails, the already-established
connection remains assigned and open — it is not closed before the error
propagates. -/
theorem C4_amended (env : PGEnv) (tid : Option String) :
    (env.connectOk = false →
      (Database.mk tid none).connect env =
        (Database.mk tid none, .error .connectFailed)) ∧
    (∀ t e, env.connectOk = true → tid = some t → t ≠ "" →
      env.runStmt setTenantQuery (some [t]) = .fail e →
      ((Database.mk tid none).connect env).2 = .error e ∧
      ∃ s, ((Database.mk tid none).connect env).1.connection = some s ∧
        s.closed = false) := by
  constructor
  · intro hfail
    simp [Database.connect, hfail]
  · intro t e hok htid ht hset
    subst htid
    simp [Database.connect, hok, ht, cursorExecute, hset, freshSession]

/-- C4 witness: a failed handshake leaves the object unchanged with the
error raised; a failed tagging statement raises the error with the
connection still assigned and open. -/
theorem C4_witness :
    ((Database.mk (some "customer-001") none).connect failConnEnv =
      (Database.mk (some "customer-001") none, .error .connectFailed)) ∧
    (((Database.mk (some "customer-001") none).connect tagFailEnv).2 =
        .error .queryFailed ∧
      ∃ s, ((Database.mk (some "customer-001") none).connect tagFailEnv).1.connection =
          some s ∧
        s.closed = false) :=
  ⟨(C4_amended failConnEnv (some "customer-001")).1 rfl,
   (C4_amended tagFailEnv (some "customer-001")).2 "customer-001" .queryFailed
      rfl rfl (by decide) rfl⟩

/-- C5: `close` on a never-opened Connection is a no-op that raises no
error, and a second `close` on an already-closed Connection raises no
error either (the first `close` also raises none). -/
theorem C5 (tid : Option String) (db : Database) :
    (Database.mk tid none).close = (Database.mk tid none, .ok ()) ∧
    (db.close).2 = .ok () ∧
    (((db.close).1).close).2 = .ok () := by
  refine ⟨rfl, close_never_raises db, close_never_raises _⟩

/-! ## Claims about the message relay client -/

/-- A relay environment whose transport always succeeds with a
well-shaped response body. -/
def okRelayEnv : RelayEnv :=
  { invoke := fun _ _ =>
      .ok (Json.obj
        [("content", Json.arr [Json.obj [("text", Json.str "Butler online")]])]) }

/-- A relay environment whose transport call always errors. -/
def errRelayEnv : RelayEnv := { invoke := fun _ _ => .error .transportError }

/-- The relay client with the built-in default model identifier. -/
def defaultClient : ClaudeClient :=
  { model_id := "anthropic.claude-3-5-sonnet-20241022-v2:0" }

/-- C6 as stated is false at the empty system instruction: a system
instruction is supplied (`some ""` is not `none`), yet the envelope
carries no `system` field, because `if system:` is a Python truthiness
test and the empty string is falsy. -/
theorem C6_counterexample :
    (some "" : Option String) ≠ none ∧
    (buildRequestBody [{ role := "user", content := "ping" }] (some "") 1024).system =
      none := by
  refine ⟨?_, rfl⟩
  simp

/-- C6 (amended): for every messages list, optional system instruction
and token bound, `send` builds a request envelope containing exactly the
protocol version tag `bedrock-2023-05-31`, the token bound as
`max_tokens`, the message sequence under `messages`, and a `system`
field if and only if a non-empty system instruction is present (in which
case the field carries that instruction verbatim). -/
theorem C6_amended (msgs : List Message) (sys : Option String) (mt : Nat) :
    (buildRequestBody msgs sys mt).anthropic_version = "bedrock-2023-05-31" ∧
    (buildRequestBody msgs sys mt).max_tokens = mt ∧
    (buildRequestBody msgs sys mt).messages = msgs ∧
    ((buildRequestBody msgs sys mt).system ≠ none ↔
      ∃ s, sys = some s ∧ s ≠ "") ∧
    (∀ s, sys = some s → s ≠ "" →
      (buildRequestBody msgs sys mt).system = some s) := by
  refine ⟨rfl, rfl, rfl, ?_, ?_⟩
  · cases sys with
    | none => simp [buildRequestBody, pyTruthy]
    | some s =>
      by_cases hs : s = "" <;>
        simp [buildRequestBody, pyTruthy, hs]
  · intro s hs hne
    subst hs
    simp [buildRequestBody, pyTruthy, hne]

/-- C6 witness: a non-empty system instruction lands in the envelope's
`system` field. -/
theorem C6_witness :
    (buildRequestBody [{ role := "user", content := "ping" }]
        (some "Reply with OK") 1024).system = some "Reply with OK" :=
  (C6_amended [{ role := "user", content := "ping" }] (some "Reply with OK")
      1024).2.2.2.2 "Reply with OK" rfl (by decide)

/-- C7: `send` propagates any transport error; on a transport success it
returns exactly what the extraction `response_body['content'][0]['text']`
yields — the text value of the first content block when the shape is
present, the extraction error otherwise — and it returns a value only
when the transport succeeded and the extraction succeeded, so no failure
ever yields a silent value (in particular never a silent empty
string). -/
theorem C7 (c : ClaudeClient) (env : RelayEnv) (msgs : List Message)
    (sys : Option String) (mt : Nat) :
    (∀ e, env.invoke c.model_id (buildRequestBody msgs sys mt) = .error e →
      c.send_message env msgs sys mt = .error e) ∧
    (∀ body, env.invoke c.model_id (buildRequestBody msgs sys mt) = .ok body →
      c.send_message env msgs sys mt = extractReply body) ∧
    (∀ v rest extra more,
      env.invoke c.model_id (buildRequestBody msgs sys mt) =
        .ok (Json.obj
          (("content", Json.arr (Json.obj (("text", v) :: extra) :: rest)) :: more)) →
      c.send_message env msgs sys mt = .ok v) ∧
    (∀ body e, env.invoke c.model_id (buildRequestBody msgs sys mt) = .ok body →
      extractReply body = .error e → c.send_message env msgs sys mt = .error e) ∧
    (∀ v, c.send_message env msgs sys mt = .ok v →
      ∃ body, env.invoke c.model_id (buildRequestBody msgs sys mt) = .ok body ∧
        extractReply body = .ok v) := by
  refine ⟨?_, ?_, ?_, ?_, ?_⟩
  · intro e he
    simp [ClaudeClient.send_message, he]
  · intro body hb
    simp [ClaudeClient.send_message, hb]
  · intro v rest extra more hb
    simp only [ClaudeClient.send_message, hb]
    rfl
  · intro body e hb hex
    simp [ClaudeClient.send_message, hb, hex]
  · intro v hv
    rcases hinv : env.invoke c.model_id (buildRequestBody msgs sys mt) with e | body
    · simp [ClaudeClient.send_message, hinv] at hv
    · simp only [ClaudeClient.send_message, hinv] at hv
      exact ⟨body, rfl, hv⟩

/-- C7 witness: the well-shaped body yields its text; a transport error
is re-raised. -/
theorem C7_witness :
    defaultClient.send_message okRelayEnv [{ role := "user", content := "ping" }]
        (some "Reply with OK") 1024 = .ok (Json.str "Butler online") ∧
    defaultClient.send_message errRelayEnv [{ role := "user", content := "ping" }]
        none 1024 = .error .transportError :=
  ⟨(C7 defaultClient okRelayEnv [{ role := "user", content := "ping" }]
        (some "Reply with OK") 1024).2.2.1 (Json.str "Butler online") [] [] [] rfl,
   (C7 defaultClient errRelayEnv [{ role := "user", content := "ping" }]
        none 1024).1 .transportError rfl⟩

/-- C8: `chat(user_text, system)` coincides with the spec's description —
`send` applied to the single-turn sequence `[{role: user, content:
user_text}]` with the same system instruction (and the default token
bound 1024) — and the message sequence it submits is never empty. -/
theorem C8 (c : ClaudeClient) (env : RelayEnv) (u : String)
    (sys : Option String) :
    c.chat env u sys = chatSpec c env u sys ∧
    c.chat env u sys =
      c.send_message env [{ role := "user", content := u }] sys 1024 ∧
    (buildRequestBody [{ role := "user", content := u }] sys 1024).messages ≠ [] := by
  refine ⟨rfl, rfl, ?_⟩
  simp [buildRequestBody]

/-! ## Parameter handling and the empty-tenant case -/

/-- C9: `execute` hands the statement to the driver verbatim — whatever
the parameter values, the new log entry carries the query text `q`
unchanged with the parameters as a separate component, so the query text
seen by the driver is independent of the parameter values; likewise the
tenant-tagging statement issued at open is the constant text
`SET app.tenant_id = %s` for every (non-empty) tenant identifier, with
the identifier passed only as a driver parameter. -/
theorem C9 (env : PGEnv) :
    (∀ (db : Database) (s : PGSession) (q : String) (p : Option (List String)),
      db.connection = some s →
      ∃ s1, (db.execute env q p).1.connection = some s1 ∧
        s1.log = s.log ++ [(q, p)]) ∧
    (∀ t, t ≠ "" → env.connectOk = true →
      ∃ s1, ((Database.mk (some t) none).connect env).1.connection = some s1 ∧
        s1.log.map Prod.fst = [setTenantQuery] ∧
        s1.log.map Prod.snd = [some [t]]) := by
  constructor
  · intro db s q p h
    rcases hout : env.runStmt q p with rs | _ | e <;>
      simp [Database.execute, h, cursorExecute, hout, applyTag_log]
  · intro t ht hok
    rcases hout : env.runStmt setTenantQuery (some [t]) with rs | _ | e <;>
      simp [Database.connect, hok, ht, cursorExecute, hout, freshSession,
        applyTag_log]

/-- C9 witness: a parameterized `INSERT` is logged verbatim with its
parameters separate, and connecting with tenant `customer-001` logs only
the constant tagging text. -/
theorem C9_witness :
    (∃ s1,
      (connectedDb.execute okEnv "INSERT INTO t VALUES (%s)" (some ["v"])).1.connection =
        some s1 ∧
      s1.log = connectedSession.log ++ [("INSERT INTO t VALUES (%s)", some ["v"])]) ∧
    (∃ s1, ((Database.mk (some "customer-001") none).connect okEnv).1.connection =
        some s1 ∧
      s1.log.map Prod.fst = [setTenantQuery] ∧
      s1.log.map Prod.snd = [some ["customer-001"]]) :=
  ⟨(C9 okEnv).1 connectedDb connectedSession "INSERT INTO t VALUES (%s)"
      (some ["v"]) rfl,
   (C9 okEnv).2 "customer-001" (by decide) rfl⟩

/-- C10: opening a Connection whose tenant identifier is the empty
string establishes the connection but issues no session-tagging
statement at all — the resulting state and outcome coincide with those
of a Connection opened with no tenant identifier, and the fresh
session's statement log is empty. -/
theorem C10 (env : PGEnv) (hok : env.connectOk = true) :
    (Database.mk (some "") none).connect env =
      ({ tenant_id := some "", connection := some freshSession }, .ok ()) ∧
    (Database.mk none none).connect env =
      ({ tenant_id := none, connection := some freshSession }, .ok ()) ∧
    ((Database.mk (some "") none).connect env).1.connection =
      ((Database.mk none none).connect env).1.connection ∧
    ((Database.mk (some "") none).connect env).2 =
      ((Database.mk none none).connect env).2 ∧
    freshSession.log = [] := by
  refine ⟨?_, ?_, ?_, ?_, rfl⟩ <;>
    simp [Database.connect, hok]

/-- C10 witness: the empty-string tenant in the well-behaved
environment. -/
theorem C10_witness :
    (Database.mk (some "") none).connect okEnv =
      ({ tenant_id := some "", connection := some freshSession }, .ok ()) :=
  (C10 okEnv rfl).1

end AccessLayer
